import Mathlib

/-!
Verification of the streaming client (roushou/anthropic-rs).

Shallow embedding of the files under `src/`:
- `anthropic/src/client.rs` : `Client::create_message`, `Client::stream_message`
- `anthropic/src/models/model.rs` : `Model`
- `src/api/message.rs` : `MessageRequest` and its builder methods

Text is modelled as `List Char`, byte streams as `List Nat` (each < 256).
Parts of the crate that are referenced but whose sources are absent
(`api/stream.rs`, `error.rs`) are modelled from the specification and say so
in their doc comments.
-/

/-- Rust `char::is_whitespace` (Unicode White_Space property). -/
def isRustWs (c : Char) : Bool :=
  c = ' ' || c = '\t' || c = '\n' || c = '\r' ||
  c.toNat = 0x0B || c.toNat = 0x0C || c.toNat = 0x85 || c.toNat = 0xA0 ||
  c.toNat = 0x1680 || (0x2000 ≤ c.toNat && c.toNat ≤ 0x200A) ||
  c.toNat = 0x2028 || c.toNat = 0x2029 || c.toNat = 0x202F ||
  c.toNat = 0x205F || c.toNat = 0x3000

/-- Rust `str::trim`: drop whitespace from both ends. -/
def rustTrim (s : List Char) : List Char :=
  ((s.dropWhile isRustWs).reverse.dropWhile isRustWs).reverse

/-- Rust `str::split("\n\n")`: split on the two-newline frame delimiter,
left-to-right, non-overlapping matches (client.rs line 129). -/
def splitNN : List Char → List (List Char)
  | [] => [[]]
  | '\n' :: '\n' :: rest => [] :: splitNN rest
  | c :: rest =>
    match splitNN rest with
    | [] => [[c]]
    | p :: ps => (c :: p) :: ps

/-- Rust `str::split("\n")` (client.rs line 135). -/
def splitN : List Char → List (List Char)
  | [] => [[]]
  | '\n' :: rest => [] :: splitN rest
  | c :: rest =>
    match splitN rest with
    | [] => [[c]]
    | p :: ps => (c :: p) :: ps

/-- Substring occurrence test. -/
def hasSub (pat : List Char) : List Char → Bool
  | [] => pat.isEmpty
  | c :: rest => pat.isPrefixOf (c :: rest) || hasSub pat rest

/-- The suffix following the first occurrence of `pat`, when there is one. -/
def afterSub (pat : List Char) : List Char → Option (List Char)
  | [] => if pat.isEmpty then some [] else none
  | c :: rest =>
    if pat.isPrefixOf (c :: rest) then some ((c :: rest).drop pat.length)
    else afterSub pat rest

/-- The characters before the next double quote, when one exists. -/
def takeUntilQuote : List Char → Option (List Char)
  | [] => none
  | '"' :: _ => some []
  | c :: rest => (takeUntilQuote rest).map (fun t => c :: t)

/-- The JSON key pattern for key `k`, that is the characters of `"k":`. -/
def keyPat (k : String) : List Char :=
  '"' :: k.toList ++ ("\":").toList

/-- Whether the JSON key `k` occurs in the text. -/
def keyPresent (k : String) (s : List Char) : Bool :=
  hasSub (keyPat k) s

/-- The string value of the first occurrence of JSON key `k`. -/
def extractString (k : String) (s : List Char) : Option (List Char) :=
  match afterSub (keyPat k ++ ['"']) s with
  | some rest => takeUntilQuote rest
  | none => none

/-- Numeric value of a list of decimal digits. -/
def digitsVal (ds : List Char) : Nat :=
  ds.foldl (fun acc c => acc * 10 + (c.toNat - 48)) 0

/-- The numeric value of the first occurrence of JSON key `k`. -/
def extractNat (k : String) (s : List Char) : Option Nat :=
  match afterSub (keyPat k) s with
  | some rest =>
    match rest.takeWhile (fun c => c.isDigit) with
    | [] => none
    | ds => some (digitsVal ds)
  | none => none

/-- UTF-8 continuation byte. -/
def isCont (b : Nat) : Bool := 0x80 ≤ b && b ≤ 0xBF

/-- Constraint on the second byte of a three-byte UTF-8 sequence
(excludes overlong encodings and surrogates), per Unicode Table 3-7,
as enforced by Rust `std::str::from_utf8`. -/
def cont2ok (b b1 : Nat) : Bool :=
  if b = 0xE0 then 0xA0 ≤ b1 && b1 ≤ 0xBF
  else if b = 0xED then 0x80 ≤ b1 && b1 ≤ 0x9F
  else isCont b1

/-- Constraint on the second byte of a four-byte UTF-8 sequence, per
Unicode Table 3-7, as enforced by Rust `std::str::from_utf8`. -/
def cont3ok (b b1 : Nat) : Bool :=
  if b = 0xF0 then 0x90 ≤ b1 && b1 ≤ 0xBF
  else if b = 0xF4 then 0x80 ≤ b1 && b1 ≤ 0x8F
  else isCont b1

/-- Strict UTF-8 decoding of a byte sequence, `none` on any ill-formed
input, exactly the validation performed by Rust `std::str::from_utf8`
(client.rs line 127). -/
def utf8Decode : List Nat → Option (List Char)
  | [] => some []
  | b :: rest =>
    if b ≤ 0x7F then
      match utf8Decode rest with
      | some cs => some (Char.ofNat b :: cs)
      | none => none
    else if b < 0xC2 then none
    else if b ≤ 0xDF then
      match rest with
      | b1 :: rest2 =>
        if isCont b1 then
          match utf8Decode rest2 with
          | some cs => some (Char.ofNat ((b - 0xC0) * 0x40 + (b1 - 0x80)) :: cs)
          | none => none
        else none
      | [] => none
    else if b ≤ 0xEF then
      match rest with
      | b1 :: b2 :: rest3 =>
        if cont2ok b b1 && isCont b2 then
          match utf8Decode rest3 with
          | some cs =>
            some (Char.ofNat ((b - 0xE0) * 0x1000 + (b1 - 0x80) * 0x40 + (b2 - 0x80)) :: cs)
          | none => none
        else none
      | _ => none
    else if b ≤ 0xF4 then
      match rest with
      | b1 :: b2 :: b3 :: rest4 =>
        if cont3ok b b1 && isCont b2 && isCont b3 then
          match utf8Decode rest4 with
          | some cs =>
            some (Char.ofNat ((b - 0xF0) * 0x40000 + (b1 - 0x80) * 0x1000 +
              (b2 - 0x80) * 0x40 + (b3 - 0x80)) :: cs)
          | none => none
        else none
      | _ => none
    else none

/-- Standard UTF-8 encoding of one scalar value (used only to build
concrete byte-stream inputs). -/
def encodeChar (c : Char) : List Nat :=
  let n := c.toNat
  if n ≤ 0x7F then [n]
  else if n ≤ 0x7FF then [0xC0 + n / 0x40, 0x80 + n % 0x40]
  else if n ≤ 0xFFFF then
    [0xE0 + n / 0x1000, 0x80 + (n / 0x40) % 0x40, 0x80 + n % 0x40]
  else
    [0xF0 + n / 0x40000, 0x80 + (n / 0x1000) % 0x40,
     0x80 + (n / 0x40) % 0x40, 0x80 + n % 0x40]

/-- UTF-8 bytes of a string (input-building helper). -/
def strBytes (s : String) : List Nat :=
  (s.toList.map encodeChar).foldr (fun a b => a ++ b) []

/-- `Model` from models/model.rs. -/
inductive Model
  | claude35Sonnet
  | claude3Opus
  | claude3Sonnet
  | claude3Haiku
deriving DecidableEq

/-- `Model::as_str` (models/model.rs lines 18-25). -/
def Model.asStr : Model → List Char
  | .claude35Sonnet => ("claude-3-5-sonnet-20240620").toList
  | .claude3Opus => ("claude-3-opus-20240229").toList
  | .claude3Sonnet => ("claude-3-sonnet-20240229").toList
  | .claude3Haiku => ("claude-3-haiku-20240307").toList

/-- `StopReason` from api/message.rs. -/
inductive StopReason
  | endTurn
  | maxTokens
  | stopSequence
  | toolUse
deriving DecidableEq

/-- serde decoding of `StopReason` tags (snake_case renames in api/message.rs). -/
def StopReason.fromStr (s : List Char) : Option StopReason :=
  if s = ("end_turn").toList then some .endTurn
  else if s = ("max_tokens").toList then some .maxTokens
  else if s = ("stop_sequence").toList then some .stopSequence
  else if s = ("tool_use").toList then some .toolUse
  else none

/-- Modelled from the spec: the error type `AnthropicError` (error.rs is not
among the sources). Variants are those exercised by the verified paths of
client.rs and model.rs: `api` is `Api(ApiErrorResponse)` carrying the error
kind and message; `jsonDeserialize` is `JsonDeserialize` produced on a
non-2xx body that fails to parse (spec name `MalformedErrorBody`), carrying
the offending body as the parse fault; `malformedSuccessBody` is the spec's
classification of a 2xx body that fails to parse; `malformedEvent` is the
spec's fatal event-parse error; `modelNotSupported` is
`ModelNotSupported(String)` as used in model.rs lines 43-45. -/
inductive AnthropicError
  | api (kind msg : List Char)
  | jsonDeserialize (body : List Char)
  | malformedSuccessBody (body : List Char)
  | malformedEvent (payload : List Char)
  | modelNotSupported (s : List Char)
deriving DecidableEq

/-- `Model::from_str` (models/model.rs lines 37-47). -/
def Model.fromStr (s : List Char) : Except AnthropicError Model :=
  if s = ("claude-3-5-sonnet-20240620").toList then .ok .claude35Sonnet
  else if s = ("claude-3-opus-20240229").toList then .ok .claude3Opus
  else if s = ("claude-3-sonnet-20240229").toList then .ok .claude3Sonnet
  else if s = ("claude-3-haiku-20240307").toList then .ok .claude3Haiku
  else .error (.modelNotSupported s)

/-- The four supported model name strings (models/model.rs). -/
def supportedModelNames : List (List Char) :=
  [("claude-3-5-sonnet-20240620").toList, ("claude-3-opus-20240229").toList,
   ("claude-3-sonnet-20240229").toList, ("claude-3-haiku-20240307").toList]

/-- Modelled from the spec: deserialization of the API Error Envelope
`ApiErrorResponse` (error.rs is not among the sources). Per the spec the
body shape is an object with top-level tag `error` and a nested error
object carrying a kind tag and a message; the result is the (kind, message)
pair. -/
def parseApiErrorResponse (s : List Char) : Option (List Char × List Char) :=
  match extractString ("type") s, extractString ("message") s with
  | some t, some m =>
    if t = ("error").toList then
      match afterSub (keyPat ("type") ++ ['"']) s with
      | some rest =>
        match extractString ("type") rest with
        | some kind => some (kind, m)
        | none => none
      | none => none
    else none
  | _, _ => none

/-- The non-2xx classification shared by `create_message` (client.rs lines
94-100) and `stream_message` (client.rs lines 116-122): parse the body as an
API Error Envelope; on success return `Api`, otherwise `JsonDeserialize`
carrying the parse fault. -/
def classifyNonSuccess (body : List Char) : AnthropicError :=
  match parseApiErrorResponse body with
  | some (k, m) => .api k m
  | none => .jsonDeserialize body

/-- `reqwest::StatusCode::is_success`: 200 ≤ status ≤ 299. -/
def is2xx (status : Nat) : Bool := 200 ≤ status && status ≤ 299

/-- Modelled from the spec: the streaming event union `StreamEvent`
(api/stream.rs is not among the sources). Variants per the spec's §3
Streaming Event union; `contentBlockDelta` carries the block index and the
incremental text fragment, `errorEvent` carries the API Error Envelope. -/
inductive StreamEvent
  | messageStart
  | contentBlockStart
  | contentBlockDelta (index : Nat) (text : List Char)
  | contentBlockStop
  | messageDelta
  | messageStop
  | ping
  | errorEvent (kind msg : List Char)
deriving DecidableEq

/-- The recognized type discriminators of the streaming protocol. -/
def recognizedTags : List (List Char) :=
  [("message_start").toList, ("content_block_start").toList,
   ("content_block_delta").toList, ("content_block_stop").toList,
   ("message_delta").toList, ("message_stop").toList,
   ("ping").toList, ("error").toList]

/-- Modelled from the spec: `StreamEvent::from_str` (api/stream.rs is not
among the sources). Dispatch is by the explicit `type` discriminator of the
JSON payload; an unrecognized discriminator is the recoverable skip
condition (`ok none`); a recognized discriminator whose payload lacks a
required field is the fatal `MalformedEvent` error; field validation is
modelled as required-key presence / extraction over the flat payload text. -/
def StreamEvent.fromStr (s : List Char) : Except AnthropicError (Option StreamEvent) :=
  match extractString ("type") s with
  | none => .error (.malformedEvent s)
  | some tag =>
    if tag = ("message_start").toList then
      if keyPresent ("message") s then .ok (some .messageStart)
      else .error (.malformedEvent s)
    else if tag = ("content_block_start").toList then
      if keyPresent ("content_block") s then .ok (some .contentBlockStart)
      else .error (.malformedEvent s)
    else if tag = ("content_block_delta").toList then
      match extractNat ("index") s, extractString ("text") s with
      | some i, some t => .ok (some (.contentBlockDelta i t))
      | _, _ => .error (.malformedEvent s)
    else if tag = ("content_block_stop").toList then
      if keyPresent ("index") s then .ok (some .contentBlockStop)
      else .error (.malformedEvent s)
    else if tag = ("message_delta").toList then
      if keyPresent ("delta") s then .ok (some .messageDelta)
      else .error (.malformedEvent s)
    else if tag = ("message_stop").toList then .ok (some .messageStop)
    else if tag = ("ping").toList then .ok (some .ping)
    else if tag = ("error").toList then
      match parseApiErrorResponse s with
      | some (k, m) => .ok (some (.errorEvent k m))
      | none => .error (.malformedEvent s)
    else .ok none

/-- The ways a Rust panic can arise in the `stream_message` loop. -/
inductive PanicKind
  | invalidUtf8
  | indexOutOfBounds
deriving DecidableEq

/-- Outcome of the streaming session: `ok` is `Ok(())`, `error` is an early
`return Err(..)`, `panic` is an `unwrap` / out-of-bounds panic. -/
inductive SessionOutcome
  | ok
  | error (e : AnthropicError)
  | panic (p : PanicKind)
deriving DecidableEq

/-- Result of processing one `split("\n\n")` piece in the loop body. -/
inductive FrameStep
  | skip
  | emit (t : List Char)
  | fatal (e : AnthropicError)
  | oob
deriving DecidableEq

/-- The `data: ` field marker (client.rs line 137). -/
def dataTag : List Char := ("data: ").toList

/-- One iteration of the frame loop in `stream_message` (client.rs lines
129-143): trim the piece, skip it when empty, split it into lines, index
line 1 (a Rust panic when the frame has a single line), and when line 1
carries the `data: ` marker parse the payload; a `ContentBlockDelta` event
prints its delta text, any parse error propagates via `?`. -/
def processFrame (piece : List Char) : FrameStep :=
  let ev := rustTrim piece
  if ev.isEmpty then .skip
  else
    match (splitN ev).get? 1 with
    | none => .oob
    | some line1 =>
      if dataTag.isPrefixOf line1 then
        match StreamEvent.fromStr (line1.drop dataTag.length) with
        | .error e => .fatal e
        | .ok (some (.contentBlockDelta _ t)) => .emit t
        | .ok _ => .skip
      else .skip

/-- The frame loop over the pieces of one chunk, collecting printed delta
texts in order, stopping at the first fatal error or panic. -/
def runFrames : List (List Char) → List (List Char) × SessionOutcome
  | [] => ([], SessionOutcome.ok)
  | f :: fs =>
    match processFrame f with
    | FrameStep.skip => runFrames fs
    | FrameStep.emit t => ((t :: (runFrames fs).1), (runFrames fs).2)
    | FrameStep.fatal e => ([], SessionOutcome.error e)
    | FrameStep.oob => ([], SessionOutcome.panic PanicKind.indexOutOfBounds)

/-- Processing of one transport chunk (client.rs lines 126-143): decode the
chunk bytes as UTF-8 (`unwrap` panics on failure), split on the frame
delimiter and run the frame loop. -/
def runChunk (bytes : List Nat) : List (List Char) × SessionOutcome :=
  match utf8Decode bytes with
  | none => ([], SessionOutcome.panic PanicKind.invalidUtf8)
  | some chars => runFrames (splitNN chars)

/-- The `while let Some(chunk)` loop of `stream_message` (client.rs lines
125-146): process chunks in order, stop at the first error or panic,
return `Ok(())` at transport end-of-stream. -/
def runChunks : List (List Nat) → List (List Char) × SessionOutcome
  | [] => ([], SessionOutcome.ok)
  | c :: cs =>
    match (runChunk c).2 with
    | SessionOutcome.ok => ((runChunk c).1 ++ (runChunks cs).1, (runChunks cs).2)
    | _ => runChunk c

/-- The frame sequence the loop extracts from one decoded chunk: the
trimmed, non-empty pieces of `split("\n\n")` (client.rs lines 129-133). -/
def chunkFrames (chars : List Char) : List (List Char) :=
  ((splitNN chars).map rustTrim).filter (fun f => !f.isEmpty)

/-- The ordered frame sequence produced over a whole chunk sequence, `none`
when some chunk is not valid UTF-8 on its own. Each chunk is decoded and
split independently: no buffer is carried across chunks. -/
def framesOfChunks : List (List Nat) → Option (List (List Char))
  | [] => some []
  | c :: cs =>
    match utf8Decode c with
    | none => none
    | some chars => (framesOfChunks cs).map (fun rest => chunkFrames chars ++ rest)

/-- A parsed Response Envelope. Modelled from the spec where serde derives
the parsing: fields of `MessageResponse` (api/message.rs lines 145-155);
the content-block list is not modelled (no claim inspects it). -/
structure MessageResponseM where
  id : List Char
  model : Model
  stopReason : StopReason
  stopSequence : Option (List Char)
  inputTokens : Nat
  outputTokens : Nat
deriving DecidableEq

/-- Modelled from the spec: serde deserialization of the success body as a
Response Envelope (the derive is not source text). Requires the `message`
tag, the `assistant` role, an id, a known model name, a known stop reason
and the usage counts; the optional stop sequence is carried when present. -/
def parseMessageResponse (s : List Char) : Option MessageResponseM :=
  match extractString ("type") s, extractString ("role") s,
    extractString ("id") s, extractString ("model") s,
    extractString ("stop_reason") s,
    extractNat ("input_tokens") s, extractNat ("output_tokens") s with
  | some t, some r, some id, some mdl, some sr, some iT, some oT =>
    if t = ("message").toList && r = ("assistant").toList then
      match Model.fromStr mdl, StopReason.fromStr sr with
      | .ok m, some sr2 =>
        some { id := id, model := m, stopReason := sr2,
               stopSequence := extractString ("stop_sequence") s,
               inputTokens := iT, outputTokens := oT }
      | _, _ => none
    else none
  | _, _, _, _, _, _, _ => none

/-- `Client::create_message` (client.rs lines 84-106) given the outcome of
one HTTP exchange: on a non-2xx status classify the body (lines 94-100);
on 2xx deserialize the body as a Response Envelope, the parse failure being
the spec's `MalformedSuccessBody` classification. -/
def createMessage (status : Nat) (body : List Char) : Except AnthropicError MessageResponseM :=
  if is2xx status then
    match parseMessageResponse body with
    | some r => .ok r
    | none => .error (.malformedSuccessBody body)
  else .error (classifyNonSuccess body)

/-- `Client::stream_message` (client.rs lines 108-147) given the exchange
outcome and the transport chunk sequence: on non-2xx classify the body
(lines 116-122) and return the error; otherwise run the chunk loop. The
`ok` outcome stands for the returned `Ok(())`: parsed events are printed
(first component), the success value carries none of them. -/
def streamMessage (status : Nat) (body : List Char) (chunks : List (List Nat)) :
    List (List Char) × SessionOutcome :=
  if is2xx status then runChunks chunks
  else ([], SessionOutcome.error (classifyNonSuccess body))

/-- `Role` from api/message.rs. -/
inductive Role
  | user
  | assistant
deriving DecidableEq

/-- `ContentType` from api/message.rs. -/
inductive ContentType
  | text
deriving DecidableEq

/-- `Content` from api/message.rs. -/
structure Content where
  text : List Char
  contentType : ContentType
deriving DecidableEq

/-- `Message` from api/message.rs. -/
structure Message where
  role : Role
  content : List Content
deriving DecidableEq

/-- `MessageMetadata` from api/message.rs. -/
structure MessageMetadata where
  userId : Option (List Char)
deriving DecidableEq

/-- `MessageRequest` from api/message.rs lines 26-74. `max_tokens: u32` is
modelled as `Nat`, `temperature: f32` as `Float`, `top_k`/`top_p`: `i8` as
`Int`; the builder methods never compute on these values. -/
structure MessageRequest where
  model : Model
  maxTokens : Nat
  messages : List Message
  metadata : Option MessageMetadata
  stopSequences : Option (List (List Char))
  stream : Option Bool
  system : Option (List Char)
  temperature : Option Float
  topK : Option Int
  topP : Option Int

/-- `MessageRequest::with_metadata` (api/message.rs lines 86-89). -/
def MessageRequest.withMetadata (r : MessageRequest) (v : MessageMetadata) : MessageRequest :=
  { r with metadata := some v }

/-- `MessageRequest::with_stop_sequences` (api/message.rs lines 91-94). -/
def MessageRequest.withStopSequences (r : MessageRequest) (v : List (List Char)) : MessageRequest :=
  { r with stopSequences := some v }

/-- `MessageRequest::with_stream` (api/message.rs lines 96-99). -/
def MessageRequest.withStream (r : MessageRequest) (v : Bool) : MessageRequest :=
  { r with stream := some v }

/-- `MessageRequest::with_system` (api/message.rs lines 101-104). -/
def MessageRequest.withSystem (r : MessageRequest) (v : List Char) : MessageRequest :=
  { r with system := some v }

/-- `MessageRequest::with_temperature` (api/message.rs lines 106-109). -/
def MessageRequest.withTemperature (r : MessageRequest) (v : Float) : MessageRequest :=
  { r with temperature := some v }

/-- `MessageRequest::with_top_k` (api/message.rs lines 111-114). -/
def MessageRequest.withTopK (r : MessageRequest) (v : Int) : MessageRequest :=
  { r with topK := some v }

/-- `MessageRequest::with_top_p` (api/message.rs lines 116-119). -/
def MessageRequest.withTopP (r : MessageRequest) (v : Int) : MessageRequest :=
  { r with topP := some v }

/-- A two-line delta frame chunk used as a concrete input. -/
def deltaChunk : List Nat :=
  strBytes ("event: content_block_delta\ndata: \x7b\"type\":\"content_block_delta\",\"index\":0,\"delta\":\x7b\"type\":\"text_delta\",\"text\":\"Hi\"\x7d\x7d\n\n")

/-- A two-line end-of-message frame chunk used as a concrete input. -/
def stopChunk : List Nat :=
  strBytes ("event: message_stop\ndata: \x7b\"type\":\"message_stop\"\x7d\n\n")

/-- The API Error Envelope body from the spec's end-to-end example. -/
def overloadedBody : List Char :=
  ("\x7b\"type\":\"error\",\"error\":\x7b\"type\":\"overloaded_error\",\"message\":\"Overloaded\"\x7d\x7d").toList

/-- A well-formed success body for `create_message`. -/
def goodBody : List Char :=
  ("\x7b\"id\":\"msg_01\",\"type\":\"message\",\"role\":\"assistant\",\"content\":[\x7b\"type\":\"text\",\"text\":\"Hello\"\x7d],\"model\":\"claude-3-5-sonnet-20240620\",\"stop_reason\":\"end_turn\",\"stop_sequence\":null,\"usage\":\x7b\"input_tokens\":10,\"output_tokens\":25\x7d\x7d").toList

/-- If the frame loop over a frame list ends in a non-ok outcome, appending
further frames changes nothing: no later frame is processed. -/
theorem runFrames_append_of_fatal (fs1 fs2 : List (List Char))
    (h : (runFrames fs1).2 ≠ SessionOutcome.ok) :
    runFrames (fs1 ++ fs2) = runFrames fs1 := by
  induction fs1 with
  | nil => exact absurd rfl h
  | cons f fs ih =>
    cases hp : processFrame f with
    | skip =>
      simp only [runFrames, hp] at h ⊢
      exact ih h
    | emit t =>
      simp only [runFrames, hp] at h ⊢
      rw [show fs.append fs2 = fs ++ fs2 from rfl, ih h]
    | fatal e => simp only [List.cons_append, runFrames, hp]
    | oob => simp only [List.cons_append, runFrames, hp]

/-- If the chunk loop over a chunk list ends in a non-ok outcome, appending
further chunks changes nothing: no later chunk is pulled or processed. -/
theorem runChunks_append_of_fatal (cs1 cs2 : List (List Nat))
    (h : (runChunks cs1).2 ≠ SessionOutcome.ok) :
    runChunks (cs1 ++ cs2) = runChunks cs1 := by
  induction cs1 with
  | nil => exact absurd rfl h
  | cons c cs ih =>
    cases hp : (runChunk c).2 with
    | ok =>
      simp only [runChunks, hp] at h ⊢
      rw [show cs.append cs2 = cs ++ cs2 from rfl, ih h]
    | error e => simp only [List.cons_append, runChunks, hp]
    | panic p => simp only [List.cons_append, runChunks, hp]

/-- C1: the frame decoder is not split-invariant. The byte stream of
`"ab\n\n"` delivered whole yields the single frame `ab`, but delivered as
the two chunks `"a"` and `"b\n\n"` it yields the two frames `a` and `b`:
the trailing partial frame of a chunk is processed immediately instead of
being carried forward in a buffer. -/
theorem frameDecoder_not_split_invariant :
    [97] ++ [98, 10, 10] = [97, 98, 10, 10]
    ∧ framesOfChunks [[97, 98, 10, 10]] = some [("ab").toList]
    ∧ framesOfChunks [[97], [98, 10, 10]] = some [("a").toList, ("b").toList]
    ∧ [("ab").toList] ≠ [("a").toList, ("b").toList] := by
  refine ⟨rfl, by decide, by decide, by decide⟩

/-- C2: a chunk boundary inside a multi-byte UTF-8 character makes the
session fail. The stream `0xC3 0xA9` is valid UTF-8 as a whole (the single
character U+00E9), yet delivered as the chunks `[0xC3]` and `[0xA9]` the
session panics on the per-chunk `from_utf8(..).unwrap()`: bytes are not
buffered until the character completes. -/
theorem utf8_split_midchar_fails :
    utf8Decode [0xC3, 0xA9] = some [Char.ofNat 0xE9]
    ∧ runChunks [[0xC3], [0xA9]] = ([], SessionOutcome.panic PanicKind.invalidUtf8) := by
  decide

/-- C3: a complete frame consisting of a single line with no `data: `
field makes the session fail: the loop indexes line 1 of the frame
unconditionally, which is out of bounds, instead of skipping the frame. -/
theorem singleLineFrame_fails :
    runChunks [strBytes ("ping\n\n")] =
      ([], SessionOutcome.panic PanicKind.indexOutOfBounds) := by
  decide

/-- C4: a payload with an unrecognized type discriminator parses to no
event and the frame loop skips the frame and continues with the remaining
frames; a recognized discriminator with a missing required field is the
fatal `MalformedEvent` error and stops the loop. -/
theorem unrecognized_tag_skipped :
    (∀ s tag, extractString ("type") s = some tag → tag ∉ recognizedTags →
      StreamEvent.fromStr s = .ok none)
    ∧ (∀ f fs, processFrame f = FrameStep.skip → runFrames (f :: fs) = runFrames fs)
    ∧ (∀ s, extractString ("type") s = some (("content_block_delta").toList) →
        extractNat ("index") s = none →
        StreamEvent.fromStr s = .error (.malformedEvent s))
    ∧ (∀ f fs e, processFrame f = FrameStep.fatal e →
        runFrames (f :: fs) = ([], SessionOutcome.error e)) := by
  refine ⟨?_, ?_, ?_, ?_⟩
  · intro s tag h1 h2
    simp only [recognizedTags, List.mem_cons, List.not_mem_nil, or_false, not_or] at h2
    obtain ⟨h2a, h2b, h2c, h2d, h2e, h2f, h2g, h2h⟩ := h2
    simp only [StreamEvent.fromStr, h1]
    rw [if_neg h2a, if_neg h2b, if_neg h2c, if_neg h2d, if_neg h2e, if_neg h2f,
      if_neg h2g, if_neg h2h]
  · intro f fs h
    simp only [runFrames, h]
  · intro s h1 h2
    simp only [StreamEvent.fromStr, h1]
    rw [if_neg (by decide), if_neg (by decide)]
    simp [h2]
  · intro f fs e h
    simp only [runFrames, h]

/-- C4 witness: the unrecognized tag `banana` is skipped and the loop moves
on; the recognized tag `content_block_delta` with its required fields
missing is fatal and stops the loop. -/
theorem unrecognized_tag_skipped_witness :
    StreamEvent.fromStr (("\x7b\"type\":\"banana\"\x7d").toList) = .ok none
    ∧ runFrames [("e: x\ndata: \x7b\"type\":\"banana\"\x7d").toList, ("x").toList] =
        runFrames [("x").toList]
    ∧ StreamEvent.fromStr (("\x7b\"type\":\"content_block_delta\"\x7d").toList) =
        .error (.malformedEvent (("\x7b\"type\":\"content_block_delta\"\x7d").toList))
    ∧ runFrames [("e: x\ndata: \x7b\"type\":\"content_block_delta\"\x7d").toList] =
        ([], SessionOutcome.error
          (.malformedEvent (("\x7b\"type\":\"content_block_delta\"\x7d").toList))) :=
  ⟨unrecognized_tag_skipped.1 (("\x7b\"type\":\"banana\"\x7d").toList)
     (("banana").toList) (by decide) (by decide),
   unrecognized_tag_skipped.2.1 _ _ (by decide),
   unrecognized_tag_skipped.2.2.1 _ (by decide) (by decide),
   unrecognized_tag_skipped.2.2.2 _ _ _ (by decide)⟩

/-- C5: on a non-2xx exchange both entry points return `Api` with the
embedded kind and message when the body parses as an API Error Envelope,
and the distinct `JsonDeserialize` classification (the spec's
`MalformedErrorBody`) carrying the parse fault when it does not; the three
malformed-body classifications are pairwise distinct values. -/
theorem errorClassifier_non2xx :
    (∀ status body k m, is2xx status = false → parseApiErrorResponse body = some (k, m) →
      createMessage status body = .error (.api k m)
      ∧ ∀ chunks, streamMessage status body chunks = ([], SessionOutcome.error (.api k m)))
    ∧ (∀ status body, is2xx status = false → parseApiErrorResponse body = none →
      createMessage status body = .error (.jsonDeserialize body)
      ∧ ∀ chunks, streamMessage status body chunks =
          ([], SessionOutcome.error (.jsonDeserialize body)))
    ∧ (∀ k m b b2, AnthropicError.api k m ≠ .jsonDeserialize b
      ∧ AnthropicError.api k m ≠ .malformedSuccessBody b2
      ∧ AnthropicError.jsonDeserialize b ≠ .malformedSuccessBody b2) := by
  refine ⟨?_, ?_, ?_⟩
  · intro status body k m h1 h2
    constructor
    · simp [createMessage, h1, classifyNonSuccess, h2]
    · intro chunks
      simp [streamMessage, h1, classifyNonSuccess, h2]
  · intro status body h1 h2
    constructor
    · simp [createMessage, h1, classifyNonSuccess, h2]
    · intro chunks
      simp [streamMessage, h1, classifyNonSuccess, h2]
  · intro k m b b2
    exact ⟨by simp, by simp, by simp⟩

/-- C5 witness: a 529 exchange with the overloaded-error body yields `Api`
with kind `overloaded_error` and the embedded message, in both entry
points. -/
theorem errorClassifier_non2xx_witness :
    createMessage 529 overloadedBody =
      .error (.api (("overloaded_error").toList) (("Overloaded").toList))
    ∧ streamMessage 529 overloadedBody [] =
      ([], SessionOutcome.error
        (.api (("overloaded_error").toList) (("Overloaded").toList))) :=
  ⟨(errorClassifier_non2xx.1 529 overloadedBody _ _ (by decide) (by decide)).1,
   (errorClassifier_non2xx.1 529 overloadedBody _ _ (by decide) (by decide)).2 []⟩

/-- C6: the streaming entry point does not expose the parsed events. For a
2xx exchange delivering a delta frame and a stop frame, the session prints
the delta text internally and the returned value is the bare `Ok(())`
outcome carrying no events. -/
theorem streamMessage_returns_unit_not_events :
    streamMessage 200 [] [deltaChunk, stopChunk] =
      ([("Hi").toList], SessionOutcome.ok) := by
  decide

/-- C7 counterexample: the session does not terminate at the first
end-of-message event. After a chunk whose only frame is `message_stop`
(after which the session by itself yields a clean end), a further chunk is
still pulled and its delta frame is processed and printed. -/
theorem session_continues_after_message_stop :
    runChunks [stopChunk] = ([], SessionOutcome.ok)
    ∧ runChunks [stopChunk, deltaChunk] = ([("Hi").toList], SessionOutcome.ok) := by
  decide

/-- C7 amended: the session terminates on transport end-of-stream or on the
first fatal decoder/parser failure, whichever comes first; after a fatal
failure no further chunk is pulled and no further frame is processed; an
end-of-message event does not by itself terminate the session. -/
theorem session_stops_at_fatal_or_stream_end :
    (∀ cs1 cs2, (runChunks cs1).2 ≠ SessionOutcome.ok →
      runChunks (cs1 ++ cs2) = runChunks cs1)
    ∧ (∀ fs1 fs2, (runFrames fs1).2 ≠ SessionOutcome.ok →
      runFrames (fs1 ++ fs2) = runFrames fs1)
    ∧ runChunks [] = ([], SessionOutcome.ok) :=
  ⟨runChunks_append_of_fatal, runFrames_append_of_fatal, rfl⟩

/-- C7 witness: after the invalid chunk `[0xFF]` the session result is
unchanged by any appended chunks; after a single-line frame the frame loop
result is unchanged by any appended frames. -/
theorem session_stops_at_fatal_witness :
    runChunks ([[0xFF]] ++ [stopChunk]) = runChunks [[0xFF]]
    ∧ runFrames ([("ping").toList] ++ [("x").toList]) = runFrames [("ping").toList] :=
  ⟨session_stops_at_fatal_or_stream_end.1 [[0xFF]] [stopChunk] (by decide),
   session_stops_at_fatal_or_stream_end.2.1 [("ping").toList] [("x").toList] (by decide)⟩

/-- C8: the non-streaming entry point returns the parsed Response Envelope
on a 2xx exchange, fails with `MalformedSuccessBody` when the 2xx body does
not parse, and applies the non-2xx classifier otherwise; the three cases
are exhaustive. -/
theorem createMessage_contract :
    (∀ status body r, is2xx status = true → parseMessageResponse body = some r →
      createMessage status body = .ok r)
    ∧ (∀ status body, is2xx status = true → parseMessageResponse body = none →
      createMessage status body = .error (.malformedSuccessBody body))
    ∧ (∀ status body, is2xx status = false →
      createMessage status body = .error (classifyNonSuccess body)) := by
  refine ⟨?_, ?_, ?_⟩
  · intro status body r h1 h2
    simp [createMessage, h1, h2]
  · intro status body h1 h2
    simp [createMessage, h1, h2]
  · intro status body h1
    simp [createMessage, h1]

/-- C8 witness: a 200 exchange with a well-formed body parses to the
envelope, an unparseable 200 body is `MalformedSuccessBody`, and a 404
exchange goes to the classifier. -/
theorem createMessage_contract_witness :
    createMessage 200 goodBody =
      .ok { id := ("msg_01").toList, model := Model.claude35Sonnet,
            stopReason := StopReason.endTurn, stopSequence := none,
            inputTokens := 10, outputTokens := 25 }
    ∧ createMessage 200 (("nope").toList) =
      .error (.malformedSuccessBody (("nope").toList))
    ∧ createMessage 404 (("nope").toList) =
      .error (classifyNonSuccess (("nope").toList)) :=
  ⟨createMessage_contract.1 200 goodBody _ (by decide) (by decide),
   createMessage_contract.2.1 200 (("nope").toList) (by decide) (by decide),
   createMessage_contract.2.2 404 (("nope").toList) (by decide)⟩

/-- C9: every model variant round-trips through its name, and every other
string is rejected with `ModelNotSupported` carrying that string. -/
theorem model_roundtrip :
    (∀ m : Model, Model.fromStr m.asStr = .ok m)
    ∧ (∀ s, s ∉ supportedModelNames → Model.fromStr s = .error (.modelNotSupported s)) := by
  constructor
  · intro m
    cases m <;> rfl
  · intro s h
    simp only [supportedModelNames, List.mem_cons, List.not_mem_nil, or_false, not_or] at h
    obtain ⟨h1, h2, h3, h4⟩ := h
    simp only [Model.fromStr]
    rw [if_neg h1, if_neg h2, if_neg h3, if_neg h4]

/-- C9 witness: the four names round-trip and an unsupported name is
rejected carrying the offending string. -/
theorem model_roundtrip_witness :
    Model.fromStr (Model.claude3Haiku.asStr) = .ok Model.claude3Haiku
    ∧ Model.fromStr (("claude-invalid-model").toList) =
        .error (.modelNotSupported (("claude-invalid-model").toList)) :=
  ⟨model_roundtrip.1 Model.claude3Haiku,
   model_roundtrip.2 (("claude-invalid-model").toList) (by decide)⟩

/-- C10: each `with_*` builder sets exactly its own optional field to
`some` of the given value and leaves the nine other fields of the request
unchanged. -/
theorem with_builders_frame :
    (∀ (r : MessageRequest) (v : MessageMetadata),
      (r.withMetadata v).metadata = some v ∧ (r.withMetadata v).model = r.model
      ∧ (r.withMetadata v).maxTokens = r.maxTokens
      ∧ (r.withMetadata v).messages = r.messages
      ∧ (r.withMetadata v).stopSequences = r.stopSequences
      ∧ (r.withMetadata v).stream = r.stream
      ∧ (r.withMetadata v).system = r.system
      ∧ (r.withMetadata v).temperature = r.temperature
      ∧ (r.withMetadata v).topK = r.topK ∧ (r.withMetadata v).topP = r.topP)
    ∧ (∀ (r : MessageRequest) (v : List (List Char)),
      (r.withStopSequences v).stopSequences = some v
      ∧ (r.withStopSequences v).model = r.model
      ∧ (r.withStopSequences v).maxTokens = r.maxTokens
      ∧ (r.withStopSequences v).messages = r.messages
      ∧ (r.withStopSequences v).metadata = r.metadata
      ∧ (r.withStopSequences v).stream = r.stream
      ∧ (r.withStopSequences v).system = r.system
      ∧ (r.withStopSequences v).temperature = r.temperature
      ∧ (r.withStopSequences v).topK = r.topK ∧ (r.withStopSequences v).topP = r.topP)
    ∧ (∀ (r : MessageRequest) (v : Bool),
      (r.withStream v).stream = some v ∧ (r.withStream v).model = r.model
      ∧ (r.withStream v).maxTokens = r.maxTokens
      ∧ (r.withStream v).messages = r.messages
      ∧ (r.withStream v).metadata = r.metadata
      ∧ (r.withStream v).stopSequences = r.stopSequences
      ∧ (r.withStream v).system = r.system
      ∧ (r.withStream v).temperature = r.temperature
      ∧ (r.withStream v).topK = r.topK ∧ (r.withStream v).topP = r.topP)
    ∧ (∀ (r : MessageRequest) (v : List Char),
      (r.withSystem v).system = some v ∧ (r.withSystem v).model = r.model
      ∧ (r.withSystem v).maxTokens = r.maxTokens
      ∧ (r.withSystem v).messages = r.messages
      ∧ (r.withSystem v).metadata = r.metadata
      ∧ (r.withSystem v).stopSequences = r.stopSequences
      ∧ (r.withSystem v).stream = r.stream
      ∧ (r.withSystem v).temperature = r.temperature
      ∧ (r.withSystem v).topK = r.topK ∧ (r.withSystem v).topP = r.topP)
    ∧ (∀ (r : MessageRequest) (v : Float),
      (r.withTemperature v).temperature = some v
      ∧ (r.withTemperature v).model = r.model
      ∧ (r.withTemperature v).maxTokens = r.maxTokens
      ∧ (r.withTemperature v).messages = r.messages
      ∧ (r.withTemperature v).metadata = r.metadata
      ∧ (r.withTemperature v).stopSequences = r.stopSequences
      ∧ (r.withTemperature v).stream = r.stream
      ∧ (r.withTemperature v).system = r.system
      ∧ (r.withTemperature v).topK = r.topK ∧ (r.withTemperature v).topP = r.topP)
    ∧ (∀ (r : MessageRequest) (v : Int),
      (r.withTopK v).topK = some v ∧ (r.withTopK v).model = r.model
      ∧ (r.withTopK v).maxTokens = r.maxTokens
      ∧ (r.withTopK v).messages = r.messages
      ∧ (r.withTopK v).metadata = r.metadata
      ∧ (r.withTopK v).stopSequences = r.stopSequences
      ∧ (r.withTopK v).stream = r.stream
      ∧ (r.withTopK v).system = r.system
      ∧ (r.withTopK v).temperature = r.temperature ∧ (r.withTopK v).topP = r.topP)
    ∧ (∀ (r : MessageRequest) (v : Int),
      (r.withTopP v).topP = some v ∧ (r.withTopP v).model = r.model
      ∧ (r.withTopP v).maxTokens = r.maxTokens
      ∧ (r.withTopP v).messages = r.messages
      ∧ (r.withTopP v).metadata = r.metadata
      ∧ (r.withTopP v).stopSequences = r.stopSequences
      ∧ (r.withTopP v).stream = r.stream
      ∧ (r.withTopP v).system = r.system
      ∧ (r.withTopP v).temperature = r.temperature
      ∧ (r.withTopP v).topK = r.topK) := by
  refine ⟨?_, ?_, ?_, ?_, ?_, ?_, ?_⟩ <;> intro r v <;>
    exact ⟨rfl, rfl, rfl, rfl, rfl, rfl, rfl, rfl, rfl, rfl⟩
